import Mathlib

/-!
Verification development for the hdms-admin repository (hospital diagnosis
management web application).  The definitions below are a shallow embedding of
the billing aggregation, invoice, authentication, admin API and support-ticket
logic of the repository.  Database tables are modelled as Lean lists of rows,
JavaScript objects as structures, `undefined`/nullable fields as `Option`,
JavaScript truthiness checks on strings as an explicit `optTruthy`, and each
request handler as a function from the request and the current table state to
a response paired with the new table state.
-/

set_option autoImplicit false

namespace HDMS

/-- JavaScript truthiness of a possibly-absent string (`undefined`, `null` and
`""` are falsy, every other string is truthy). -/
def optTruthy : Option String → Bool
  | none => false
  | some s => !(s == "")

/-! ## Billing aggregator

The billing service (`getBillingData` in `services/billing-service`) is called
from `components/admin/admin-billing-dashboard.tsx` but its body is not among
the provided sources; it is modelled from the spec below.  Summary maps
(`diagnosisCounts`, `diagnosisCosts`) are association lists from diagnosis
type to a number, mirroring the JS `Record<string, number>` objects. -/

/-- A diagnosis row, as used by the billing aggregation: its hospital
reference, its creation date (abstracted to a `Nat` so that date-range
comparison is decidable) and the optional `patient_metadata.scan_type`
field that carries the billing category. -/
structure Diagnosis where
  id : String
  hospitalId : String
  userId : String
  createdAt : Nat
  scanType : Option String
  deriving DecidableEq, Repr

/-- Insert-or-add into an association list used as a counter map: bump the
value stored at key `k` by `v`, appending a new entry when `k` is absent.
This is the JS idiom `m[k] = (m[k] || 0) + v`. -/
def bumpEntry (m : List (String × Nat)) (k : String) (v : Nat) : List (String × Nat) :=
  match m with
  | [] => [(k, v)]
  | (k', v') :: rest =>
    if k' = k then (k', v' + v) :: rest else (k', v') :: bumpEntry rest k v

/-- The `overall` block produced by the billing aggregator:
total amount, total diagnosis count and the per-type count/cost maps. -/
structure BillingSummary where
  totalAmount : Nat
  totalDiagnoses : Nat
  diagnosisCounts : List (String × Nat)
  diagnosisCosts : List (String × Nat)
  deriving DecidableEq, Repr

/-- The zero-valued summary, the JS object
`{ totalAmount: 0, diagnosisCounts: {}, diagnosisCosts: {}, totalDiagnoses: 0 }`
used as the fallback in `admin-billing-dashboard.tsx` (`overallStats`). -/
def emptySummary : BillingSummary :=
  { totalAmount := 0, totalDiagnoses := 0, diagnosisCounts := [], diagnosisCosts := [] }

/-- Modelled from the spec: the aggregation input of the billing service
(`{ hospitalId?: string, startDate: date, endDate: date }`); dates are
abstracted to `Nat`. -/
structure BillingInput where
  hospitalId : Option String
  startDate : Nat
  endDate : Nat
  deriving DecidableEq, Repr

/-- Modelled from the spec: the aggregator fetches "diagnoses in the date
range (and hospital, if given)"; this is the row filter of that fetch. -/
def matchesBillingInput (inp : BillingInput) (d : Diagnosis) : Bool :=
  decide (inp.startDate ≤ d.createdAt) && decide (d.createdAt ≤ inp.endDate) &&
    (match inp.hospitalId with
     | some h => d.hospitalId == h
     | none => true)

/-- Modelled from the spec: "derive each diagnosis's billing category from its
patient-metadata scan-type field, falling back to a default category when
absent" (the default category is the `"Other"` sentinel that the in-repo
analogue `getMostCommonDiagnosisTypes` uses). -/
def billingCategory (d : Diagnosis) : String :=
  d.scanType.getD "Other"

/-- Modelled from the spec: "accumulate counts and costs per category ... and
overall" — fold one diagnosis into the running summary, looking the unit cost
up in the fixed per-category price table `price`. -/
def accumulateDiagnosis (price : String → Nat) (s : BillingSummary) (d : Diagnosis) :
    BillingSummary :=
  let c := billingCategory d
  { totalAmount := s.totalAmount + price c
    totalDiagnoses := s.totalDiagnoses + 1
    diagnosisCounts := bumpEntry s.diagnosisCounts c 1
    diagnosisCosts := bumpEntry s.diagnosisCosts c (price c) }

/-- Modelled from the spec: the billing aggregator `getBillingData` — filter
the diagnosis table by the date range and optional hospital, then accumulate
counts and costs per category and overall. -/
def getBillingData (price : String → Nat) (inp : BillingInput) (diagnoses : List Diagnosis) :
    BillingSummary :=
  (diagnoses.filter (matchesBillingInput inp)).foldl (accumulateDiagnosis price) emptySummary

/-- From `components/admin/admin-hospital-billing-table.tsx` (lines 86–95): the
percentage-of-total shown per hospital,
`totalAmount > 0 ? (hospital.totalAmount / totalAmount) * 100 : 0`. -/
def hospitalBillingPercentage (hospitalAmount totalAmount : ℚ) : ℚ :=
  if totalAmount > 0 then hospitalAmount / totalAmount * 100 else 0

/-- From `components/admin/admin-billing-dashboard.tsx` (lines 157–163): the
`overallStats` fallback, `billingData?.overall || { totalAmount: 0, ... }`. -/
def overallStats (billingOverall : Option BillingSummary) : BillingSummary :=
  match billingOverall with
  | some s => s
  | none => emptySummary

/-- The fixed price table of the spec's worked example
(`CT` at cost 10000, `MRI` at cost 20000). -/
def examplePrice : String → Nat :=
  fun c => if c = "CT" then 10000 else if c = "MRI" then 20000 else 5000

/-- Sum of the values of a counter map. -/
def sumEntries (m : List (String × Nat)) : Nat :=
  (m.map Prod.snd).sum

theorem sumEntries_nil : sumEntries [] = 0 := rfl

theorem sumEntries_bumpEntry (m : List (String × Nat)) (k : String) (v : Nat) :
    sumEntries (bumpEntry m k v) = sumEntries m + v := by
  induction m with
  | nil => simp [bumpEntry, sumEntries]
  | cons hd tl ih =>
    obtain ⟨k', v'⟩ := hd
    by_cases h : k' = k
    · simp [bumpEntry, h, sumEntries]
      ring
    · simp [bumpEntry, h, sumEntries] at ih ⊢
      omega

/-- The fold invariant behind the aggregator's bookkeeping: accumulating any
list of diagnoses preserves "per-type costs sum to the total amount and
per-type counts sum to the total diagnosis count". -/
theorem accumulate_invariant (price : String → Nat) (l : List Diagnosis)
    (s : BillingSummary)
    (hcost : sumEntries s.diagnosisCosts = s.totalAmount)
    (hcount : sumEntries s.diagnosisCounts = s.totalDiagnoses) :
    sumEntries (l.foldl (accumulateDiagnosis price) s).diagnosisCosts =
      (l.foldl (accumulateDiagnosis price) s).totalAmount ∧
    sumEntries (l.foldl (accumulateDiagnosis price) s).diagnosisCounts =
      (l.foldl (accumulateDiagnosis price) s).totalDiagnoses := by
  induction l generalizing s with
  | nil => exact ⟨hcost, hcount⟩
  | cons d rest ih =>
    refine ih (accumulateDiagnosis price s d) ?_ ?_
    · simp [accumulateDiagnosis, sumEntries_bumpEntry, hcost]
    · simp [accumulateDiagnosis, sumEntries_bumpEntry, hcount]

/-- Sanity check: the spec's worked example — 3 `CT` diagnoses at cost 10000
and 2 `MRI` diagnoses at cost 20000 in the period yield
`totalAmount = 70000`, `totalDiagnoses = 5`, counts `CT 3, MRI 2` and costs
`CT 30000, MRI 40000`. -/
example :
    getBillingData examplePrice ⟨none, 0, 100⟩
      [⟨"d1", "h1", "u1", 1, some "CT"⟩, ⟨"d2", "h1", "u1", 2, some "CT"⟩,
       ⟨"d3", "h1", "u1", 3, some "CT"⟩, ⟨"d4", "h1", "u1", 4, some "MRI"⟩,
       ⟨"d5", "h1", "u1", 5, some "MRI"⟩] =
    { totalAmount := 70000, totalDiagnoses := 5,
      diagnosisCounts := [("CT", 3), ("MRI", 2)],
      diagnosisCosts := [("CT", 30000), ("MRI", 40000)] } := by
  decide

/-- C1: for every aggregation input whose date range (and hospital filter)
matches zero diagnoses, the billing aggregator returns `totalAmount = 0`,
`totalDiagnoses = 0` and empty per-type count/cost maps (a zero-valued
summary, not an error), the dashboard's `overallStats` fallback for an absent
result is the same zero summary, and the hospital-billing-table
percentage-of-total calculation yields `0` for a zero total (the guard
`totalAmount > 0 ? ... : 0` never divides by zero). -/
theorem billing_zero_matches_yields_zero_summary
    (price : String → Nat) (inp : BillingInput) (diagnoses : List Diagnosis)
    (h : ∀ d ∈ diagnoses, matchesBillingInput inp d = false) :
    getBillingData price inp diagnoses = emptySummary ∧
    (getBillingData price inp diagnoses).totalAmount = 0 ∧
    (getBillingData price inp diagnoses).totalDiagnoses = 0 ∧
    (getBillingData price inp diagnoses).diagnosisCounts = [] ∧
    (getBillingData price inp diagnoses).diagnosisCosts = [] ∧
    (∀ a : ℚ, hospitalBillingPercentage a 0 = 0) ∧
    overallStats none = emptySummary := by
  have hfilter : diagnoses.filter (matchesBillingInput inp) = [] := by
    refine List.filter_eq_nil_iff.mpr ?_
    intro d hd
    simp [h d hd]
  have hdata : getBillingData price inp diagnoses = emptySummary := by
    simp [getBillingData, hfilter]
  refine ⟨hdata, ?_, ?_, ?_, ?_, ?_, rfl⟩ <;>
    simp [hdata, emptySummary, hospitalBillingPercentage]

/-- Witness for C1: a concrete aggregation input (range 10–20) matching none
of the diagnoses in a concrete one-row table. -/
theorem billing_zero_matches_yields_zero_summary_witness :
    getBillingData examplePrice ⟨none, 10, 20⟩ [⟨"d1", "h1", "u1", 5, some "CT"⟩] =
      emptySummary :=
  (billing_zero_matches_yields_zero_summary examplePrice ⟨none, 10, 20⟩
    [⟨"d1", "h1", "u1", 5, some "CT"⟩] (by decide)).1

/-- C2: for every diagnosis table, price table and aggregation input, the sum
over all categories of the per-type costs produced by the billing aggregator
equals `overall.totalAmount`, and the sum over all categories of the per-type
counts equals `overall.totalDiagnoses`. -/
theorem billing_per_type_sums_match_totals
    (price : String → Nat) (inp : BillingInput) (diagnoses : List Diagnosis) :
    sumEntries (getBillingData price inp diagnoses).diagnosisCosts =
      (getBillingData price inp diagnoses).totalAmount ∧
    sumEntries (getBillingData price inp diagnoses).diagnosisCounts =
      (getBillingData price inp diagnoses).totalDiagnoses :=
  accumulate_invariant price (diagnoses.filter (matchesBillingInput inp))
    emptySummary rfl rfl

/-! ## Invoice status state machine

The guards come from `components/billing/invoices-list.tsx`: the
"send to hospital" button is rendered only when `invoice.status === "pending"`
(lines 186–195) and the "mark as paid" button only when
`invoice.status === "pending" || invoice.status === "sent"` (lines 196–205).
The effects of the two admin actions live in `services/billing-service`
(`sendInvoiceEmail`, `updateInvoiceStatus(id, "paid")`), which is not among
the provided sources; they are modelled from the spec. -/

/-- The stored invoice statuses (`pending`/`sent`/`paid`/`overdue`). -/
inductive InvoiceStatus
  | pending
  | sent
  | paid
  | overdue
  deriving DecidableEq, Repr, Fintype

/-- The two admin actions on an invoice offered by the invoices list. -/
inductive InvoiceAction
  | sendToHospital
  | markAsPaid
  deriving DecidableEq, Repr, Fintype

/-- From `components/billing/invoices-list.tsx` (lines 186–205): whether the
button for an action is rendered for an invoice in the given status. -/
def invoiceActionEnabled (s : InvoiceStatus) (a : InvoiceAction) : Bool :=
  match a with
  | .sendToHospital => s == .pending
  | .markAsPaid => s == .pending || s == .sent

/-- Modelled from the spec: the status written by each admin action —
"send to hospital" puts the invoice in `sent`
(`pending → sent`, via `sendInvoiceEmail`), "mark as paid" puts it in `paid`
(via `updateInvoiceStatus(id, "paid")`); both live in the absent
`services/billing-service`. -/
def invoiceActionEffect : InvoiceAction → InvoiceStatus
  | .sendToHospital => .sent
  | .markAsPaid => .paid

/-- One step of the invoice status state machine: an action changes the
status only when its button is offered for the current status. -/
def invoiceStep (s : InvoiceStatus) (a : InvoiceAction) : InvoiceStatus :=
  if invoiceActionEnabled s a then invoiceActionEffect a else s

/-- C3: the invoice status transitions are exactly `pending → sent`
("send to hospital") and `pending/sent → paid` ("mark as paid"); no sequence
of actions ever moves a status back to `pending`, and `paid` is terminal. -/
theorem invoice_status_transitions :
    (∀ s a, invoiceStep s a ≠ s →
      ((s = .pending ∧ a = .sendToHospital ∧ invoiceStep s a = .sent) ∨
       ((s = .pending ∨ s = .sent) ∧ a = .markAsPaid ∧ invoiceStep s a = .paid))) ∧
    (∀ s a, s ≠ .pending → invoiceStep s a ≠ .pending) ∧
    (∀ a, invoiceStep .paid a = .paid) := by
  refine ⟨?_, ?_, ?_⟩ <;> decide

/-- Witness for C3: concrete instances of the three conjuncts — marking a
`sent` invoice as paid is one of the listed transitions, stepping a `sent`
invoice never lands in `pending`, and `paid` absorbs the send action. -/
theorem invoice_status_transitions_witness :
    ((InvoiceStatus.sent = .pending ∧ InvoiceAction.markAsPaid = .sendToHospital ∧
        invoiceStep .sent .markAsPaid = .sent) ∨
      ((InvoiceStatus.sent = .pending ∨ InvoiceStatus.sent = .sent) ∧
        InvoiceAction.markAsPaid = .markAsPaid ∧
        invoiceStep .sent .markAsPaid = .paid)) ∧
    invoiceStep .sent .markAsPaid ≠ .pending ∧
    invoiceStep .paid .sendToHospital = .paid :=
  ⟨invoice_status_transitions.1 .sent .markAsPaid (by decide),
   invoice_status_transitions.2.1 .sent .markAsPaid (by decide),
   invoice_status_transitions.2.2 .sendToHospital⟩

/-! ## Authentication (`services/auth-service.ts`, `signIn`)

The sign-in flow is embedded as a function of the request (email form data is
abstracted into the environment), the external collaborators' answers
(failed-attempt counter from the security service, password check by the auth
provider) and the `users` table.  The outcome records the returned
error/success value, whether a session remains established at the end of the
call (`signInWithPassword` establishes one, `signOut` tears it down) and
whether password authentication was attempted at all. -/

/-- A row of the `users` table (the fields the embedded handlers read). -/
structure UserRow where
  id : String
  hospital_id : String
  is_admin : Bool
  is_disabled : Bool
  deriving DecidableEq, Repr

/-- The environment of one `signIn` call: the security service's answer for
the submitted email (`getRecentFailedLoginAttempts`), and the auth provider's
verdict on the submitted email/password pair
(`supabase.auth.signInWithPassword`), including the id of the authenticated
user on success. -/
structure AuthEnv where
  securityError : Bool
  failedAttempts : Nat
  passwordValid : Bool
  authErrorMessage : String
  authUserId : String
  deriving DecidableEq, Repr

/-- The observable outcome of one `signIn` call. -/
structure SignInOutcome where
  error : Option String
  success : Bool
  sessionEstablished : Bool
  attemptedPasswordAuth : Bool
  deriving DecidableEq, Repr

/-- From `services/auth-service.ts` (lines 9–86): the `signIn` server action.
Control flow, error strings and the sign-out calls on the disabled and
hospital-mismatch paths follow the source; the `users` row is looked up by
the authenticated user's id as in
`supabase.from("users").select("is_disabled, hospital_id").eq("id", data.user.id).single()`. -/
def signIn (env : AuthEnv) (users : List UserRow) (hospitalId : Option String) :
    SignInOutcome :=
  if env.securityError then
    { error := some "Security check failed", success := false,
      sessionEstablished := false, attemptedPasswordAuth := false }
  else if 5 ≤ env.failedAttempts then
    { error := some "Too many failed login attempts. Please try again later or reset your password.",
      success := false, sessionEstablished := false, attemptedPasswordAuth := false }
  else if !env.passwordValid then
    { error := some env.authErrorMessage, success := false,
      sessionEstablished := false, attemptedPasswordAuth := true }
  else
    match users.find? (fun u => u.id == env.authUserId) with
    | none =>
      { error := some "User profile not found", success := false,
        sessionEstablished := true, attemptedPasswordAuth := true }
    | some u =>
      if u.is_disabled then
        { error := some "Your account has been disabled. Please contact your administrator.",
          success := false, sessionEstablished := false, attemptedPasswordAuth := true }
      else if optTruthy hospitalId && !(u.hospital_id == hospitalId.getD "") then
        { error := some "You do not have access to this hospital", success := false,
          sessionEstablished := false, attemptedPasswordAuth := true }
      else
        { error := none, success := true,
          sessionEstablished := true, attemptedPasswordAuth := true }

/-- The disable/enable admin operation on the `users` table, from
`handleUpdateUser` in the admin users/:id API route:
`supabase.from("users").update({ is_disabled: b }).eq("id", userId)`. -/
def setUserDisabled (users : List UserRow) (userId : String) (b : Bool) :
    List UserRow :=
  users.map (fun u => if u.id == userId then { u with is_disabled := b } else u)

theorem find?_setUserDisabled (users : List UserRow) (userId : String) (b : Bool)
    (u : UserRow) (h : users.find? (fun x => x.id == userId) = some u) :
    (setUserDisabled users userId b).find? (fun x => x.id == userId) =
      some { u with is_disabled := b } := by
  induction users with
  | nil => simp [List.find?] at h
  | cons hd tl ih =>
    by_cases hbeq : (hd.id == userId) = true
    · simp only [List.find?, hbeq] at h
      cases h
      simp [setUserDisabled, List.find?, hbeq]
    · have hfalse : (hd.id == userId) = false := by simpa using hbeq
      simp only [List.find?, hfalse] at h
      simp only [setUserDisabled, List.map_cons, hfalse, Bool.false_eq_true, if_false,
        List.find?, cond_false]
      exact ih h

/-- C8: after the disable operation succeeds for a user, every subsequent
sign-in attempt authenticating as that user fails with an error and leaves no
session established — whatever the security counter and password verdict are;
and after the enable operation, sign-in with valid credentials (correct
password, no security block, no mismatched hospital selection) succeeds
again with a session. -/
theorem disable_blocks_signin_enable_restores
    (env : AuthEnv) (users : List UserRow) (userId : String)
    (hospitalId : Option String) (u : UserRow)
    (hid : env.authUserId = userId)
    (hu : users.find? (fun x => x.id == userId) = some u) :
    (((signIn env (setUserDisabled users userId true) hospitalId).error.isSome) ∧
     (signIn env (setUserDisabled users userId true) hospitalId).success = false ∧
     (signIn env (setUserDisabled users userId true) hospitalId).sessionEstablished
        = false) ∧
    (env.securityError = false → env.failedAttempts < 5 → env.passwordValid = true →
     (optTruthy hospitalId = false ∨ hospitalId = some u.hospital_id) →
     (signIn env (setUserDisabled users userId false) hospitalId).success = true ∧
     (signIn env (setUserDisabled users userId false) hospitalId).sessionEstablished
        = true ∧
     (signIn env (setUserDisabled users userId false) hospitalId).error = none) := by
  have hfindT := find?_setUserDisabled users userId true u hu
  have hfindF := find?_setUserDisabled users userId false u hu
  constructor
  · by_cases hsec : env.securityError
    · simp [signIn, hsec]
    · by_cases hcnt : 5 ≤ env.failedAttempts
      · simp [signIn, hsec, hcnt]
      · by_cases hpw : env.passwordValid
        · simp [signIn, hsec, hcnt, hpw, hid, hfindT]
        · simp [signIn, hsec, hcnt, hpw]
  · intro hsec hcnt hpw hhosp
    have hcnt' : ¬5 ≤ env.failedAttempts := by omega
    rcases hhosp with hnone | hmatch
    · simp [signIn, hsec, hcnt', hpw, hid, hfindF, hnone]
    · simp [signIn, hsec, hcnt', hpw, hid, hfindF, hmatch, optTruthy]

/-- Witness for C8: a concrete single-row table; after disabling user `u1`
sign-in is rejected, after enabling, sign-in with a valid password succeeds. -/
theorem disable_blocks_signin_enable_restores_witness :
    (((signIn ⟨false, 0, true, "bad", "u1"⟩
        (setUserDisabled [⟨"u1", "h1", false, false⟩] "u1" true) none).error.isSome) ∧
     (signIn ⟨false, 0, true, "bad", "u1"⟩
        (setUserDisabled [⟨"u1", "h1", false, false⟩] "u1" true) none).success = false ∧
     (signIn ⟨false, 0, true, "bad", "u1"⟩
        (setUserDisabled [⟨"u1", "h1", false, false⟩] "u1" true) none).sessionEstablished
        = false) ∧
    (false = false → (0 : Nat) < 5 → true = true →
     (optTruthy (none : Option String) = false ∨
        (none : Option String) = some "h1") →
     (signIn ⟨false, 0, true, "bad", "u1"⟩
        (setUserDisabled [⟨"u1", "h1", false, false⟩] "u1" false) none).success = true ∧
     (signIn ⟨false, 0, true, "bad", "u1"⟩
        (setUserDisabled [⟨"u1", "h1", false, false⟩] "u1" false) none).sessionEstablished
        = true ∧
     (signIn ⟨false, 0, true, "bad", "u1"⟩
        (setUserDisabled [⟨"u1", "h1", false, false⟩] "u1" false) none).error = none) :=
  disable_blocks_signin_enable_restores ⟨false, 0, true, "bad", "u1"⟩
    [⟨"u1", "h1", false, false⟩] "u1" none ⟨"u1", "h1", false, false⟩
    rfl (by decide)

/-- C10: when the submitted email has five or more recorded recent failed
login attempts (and the security lookup itself did not fail), `signIn`
returns the "Too many failed login attempts" error without attempting
password authentication, and no session is created — regardless of whether
the supplied password is correct. -/
theorem lockout_blocks_signin_before_password_auth
    (env : AuthEnv) (users : List UserRow) (hospitalId : Option String)
    (hsec : env.securityError = false) (hcnt : 5 ≤ env.failedAttempts) :
    signIn env users hospitalId =
      { error := some "Too many failed login attempts. Please try again later or reset your password.",
        success := false, sessionEstablished := false,
        attemptedPasswordAuth := false } := by
  simp [signIn, hsec, hcnt]

/-- Witness for C10: a user with 5 recorded failures and a correct password is
still locked out. -/
theorem lockout_blocks_signin_before_password_auth_witness :
    signIn ⟨false, 5, true, "bad", "u1"⟩ [⟨"u1", "h1", false, false⟩] none =
      { error := some "Too many failed login attempts. Please try again later or reset your password.",
        success := false, sessionEstablished := false,
        attemptedPasswordAuth := false } :=
  lockout_blocks_signin_before_password_auth ⟨false, 5, true, "bad", "u1"⟩
    [⟨"u1", "h1", false, false⟩] none rfl (by decide)

/-! ## Admin hospitals API (`app/api/admin/hospitals/route.ts`)

`handleCreateHospital` and `handleDeleteHospital` are embedded as functions
of the parsed request body and the current tables, returning the JSON
response (status plus `error`/`success`/payload fields) and the new tables.
The `{ count }` head-queries on `users` and `diagnoses` become list counts,
the `.single()` existence probe on the hospital code yields a row exactly
when precisely one row matches, and the `.insert`/`.delete` calls become list
operations. -/

/-- A row of the `hospitals` table. -/
structure HospitalRow where
  id : String
  name : String
  address : String
  code : String
  deriving DecidableEq, Repr

/-- A diagnosis row as referenced by the delete-hospital check (only its
hospital reference matters there); reusing `Diagnosis` keeps one model. -/
def diagnosisReferencesHospital (hid : String) (d : Diagnosis) : Bool :=
  d.hospitalId == hid

/-- The JSON response of the admin hospital handlers. -/
structure HospitalApiResponse where
  status : Nat
  error : Option String
  success : Bool
  hospital : Option HospitalRow
  deriving DecidableEq, Repr

/-- The tables touched by the admin hospital handlers. -/
structure HospitalsDB where
  hospitals : List HospitalRow
  users : List UserRow
  diagnoses : List Diagnosis
  deriving DecidableEq, Repr

/-- The parsed body of `POST /api/admin/hospitals` (`{name, address, code}`);
absent fields are `none`, and the handler's `!name || !address || !code`
check uses JS truthiness (`optTruthy`). -/
structure CreateHospitalBody where
  name : Option String
  address : Option String
  code : Option String
  deriving DecidableEq, Repr

/-- From `app/api/admin/hospitals/route.ts` (lines 66–104),
`handleCreateHospital`: validate the required fields, probe for an existing
hospital with the same code (`.select("id").eq("code", code).single()`, which
produces a row exactly when one row matches), and otherwise insert and return
the created hospital (`newId` stands for the id the store assigns). -/
def handleCreateHospital (db : HospitalsDB) (body : CreateHospitalBody)
    (newId : String) : HospitalApiResponse × HospitalsDB :=
  if !(optTruthy body.name) || !(optTruthy body.address) || !(optTruthy body.code) then
    ({ status := 400, error := some "Name, address, and code are required",
       success := false, hospital := none }, db)
  else
    let code := body.code.getD ""
    if (db.hospitals.filter (fun h => h.code == code)).length = 1 then
      ({ status := 400, error := some "Hospital code already exists",
         success := false, hospital := none }, db)
    else
      let created : HospitalRow :=
        { id := newId, name := body.name.getD "", address := body.address.getD "",
          code := code }
      ({ status := 200, error := none, success := true, hospital := some created },
       { db with hospitals := db.hospitals ++ [created] })

/-- From `app/api/admin/hospitals/route.ts` (lines 146–195),
`handleDeleteHospital`: require a hospital id, reject with a 400 descriptive
error while referencing users or diagnoses exist, otherwise delete the row. -/
def handleDeleteHospital (db : HospitalsDB) (hospitalId : Option String) :
    HospitalApiResponse × HospitalsDB :=
  match hospitalId with
  | none =>
    ({ status := 400, error := some "Hospital ID is required",
       success := false, hospital := none }, db)
  | some hid =>
    if 0 < (db.users.filter (fun u => u.hospital_id == hid)).length then
      ({ status := 400,
         error := some "Cannot delete hospital with associated users. Please reassign or delete users first.",
         success := false, hospital := none }, db)
    else if 0 < (db.diagnoses.filter (diagnosisReferencesHospital hid)).length then
      ({ status := 400,
         error := some "Cannot delete hospital with associated diagnoses. Please reassign or delete diagnoses first.",
         success := false, hospital := none }, db)
    else
      ({ status := 200, error := none, success := true, hospital := none },
       { db with hospitals := db.hospitals.filter (fun h => !(h.id == hid)) })

/-- C5: a hospital-delete request for a hospital with at least one referencing
user or at least one referencing diagnosis is rejected with a 400 descriptive
error and all tables are unchanged; with zero referencing users and zero
referencing diagnoses the deletion succeeds and the hospital row is gone. -/
theorem delete_hospital_blocked_or_succeeds (db : HospitalsDB) (hid : String) :
    ((0 < (db.users.filter (fun u => u.hospital_id == hid)).length ∨
      0 < (db.diagnoses.filter (diagnosisReferencesHospital hid)).length) →
      ((handleDeleteHospital db (some hid)).1.status = 400 ∧
       (handleDeleteHospital db (some hid)).1.error.isSome ∧
       (handleDeleteHospital db (some hid)).1.success = false ∧
       (handleDeleteHospital db (some hid)).2 = db)) ∧
    ((db.users.filter (fun u => u.hospital_id == hid)).length = 0 →
     (db.diagnoses.filter (diagnosisReferencesHospital hid)).length = 0 →
      ((handleDeleteHospital db (some hid)).1.status = 200 ∧
       (handleDeleteHospital db (some hid)).1.success = true ∧
       ∀ h ∈ (handleDeleteHospital db (some hid)).2.hospitals, h.id ≠ hid)) := by
  constructor
  · intro href
    rcases href with husers | hdiags
    · simp [handleDeleteHospital, husers]
    · by_cases husers : 0 < (db.users.filter (fun u => u.hospital_id == hid)).length
      · simp [handleDeleteHospital, husers]
      · simp [handleDeleteHospital, husers, hdiags]
  · intro husers hdiags
    have h1 : ¬0 < (db.users.filter (fun u => u.hospital_id == hid)).length := by omega
    have h2 : ¬0 < (db.diagnoses.filter (diagnosisReferencesHospital hid)).length := by
      omega
    refine ⟨by simp [handleDeleteHospital, h1, h2], by simp [handleDeleteHospital, h1, h2], ?_⟩
    intro h hmem
    simp only [handleDeleteHospital, h1, h2, if_false] at hmem
    simp only [List.mem_filter] at hmem
    simpa using hmem.2

/-- Witness for C5: deleting a hospital that one user references is rejected
leaving the tables unchanged, and deleting an unreferenced hospital succeeds. -/
theorem delete_hospital_blocked_or_succeeds_witness :
    ((handleDeleteHospital
        ⟨[⟨"h1", "General", "Kigali", "HSP-1"⟩], [⟨"u1", "h1", false, false⟩], []⟩
        (some "h1")).1.status = 400 ∧
     (handleDeleteHospital
        ⟨[⟨"h1", "General", "Kigali", "HSP-1"⟩], [⟨"u1", "h1", false, false⟩], []⟩
        (some "h1")).2 =
        ⟨[⟨"h1", "General", "Kigali", "HSP-1"⟩], [⟨"u1", "h1", false, false⟩], []⟩) ∧
    ((handleDeleteHospital
        ⟨[⟨"h1", "General", "Kigali", "HSP-1"⟩], [⟨"u1", "h2", false, false⟩], []⟩
        (some "h1")).1.status = 200 ∧
     (handleDeleteHospital
        ⟨[⟨"h1", "General", "Kigali", "HSP-1"⟩], [⟨"u1", "h2", false, false⟩], []⟩
        (some "h1")).1.success = true) := by
  have hblocked := (delete_hospital_blocked_or_succeeds
    ⟨[⟨"h1", "General", "Kigali", "HSP-1"⟩], [⟨"u1", "h1", false, false⟩], []⟩ "h1").1
    (Or.inl (by decide))
  have hok := (delete_hospital_blocked_or_succeeds
    ⟨[⟨"h1", "General", "Kigali", "HSP-1"⟩], [⟨"u1", "h2", false, false⟩], []⟩ "h1").2
    (by decide) (by decide)
  exact ⟨⟨hblocked.1, hblocked.2.2.2⟩, hok.1, hok.2.1⟩

/-- C9: when the request body's code equals an existing hospital's code (codes
being unique across the table, the application-level invariant), the handler
answers with a conflict error ("Hospital code already exists", status 400 in
the source) and inserts no row; when the code is fresh and name/address/code
are all present, it answers success and returns the created hospital, which
is appended to the table. -/
theorem create_hospital_conflict_or_created (db : HospitalsDB)
    (body : CreateHospitalBody) (newId : String)
    (hnodup : (db.hospitals.map HospitalRow.code).Nodup)
    (hname : optTruthy body.name = true)
    (haddr : optTruthy body.address = true)
    (hcode : optTruthy body.code = true) :
    ((∃ h ∈ db.hospitals, some h.code = body.code) →
      ((handleCreateHospital db body newId).1.status = 400 ∧
       (handleCreateHospital db body newId).1.error = some "Hospital code already exists" ∧
       (handleCreateHospital db body newId).2 = db)) ∧
    ((∀ h ∈ db.hospitals, some h.code ≠ body.code) →
      ((handleCreateHospital db body newId).1.success = true ∧
       (handleCreateHospital db body newId).1.hospital =
         some ⟨newId, body.name.getD "", body.address.getD "", body.code.getD ""⟩ ∧
       (handleCreateHospital db body newId).2.hospitals =
         db.hospitals ++ [⟨newId, body.name.getD "", body.address.getD "", body.code.getD ""⟩])) := by
  obtain ⟨codeStr, hcodeEq⟩ : ∃ s, body.code = some s := by
    cases hb : body.code with
    | none => rw [hb] at hcode; simp [optTruthy] at hcode
    | some s => exact ⟨s, rfl⟩
  constructor
  · rintro ⟨h, hmem, hhcode⟩
    have hcount : (db.hospitals.filter (fun x => x.code == codeStr)).length = 1 := by
      have hsome : h.code = codeStr := by
        rw [hcodeEq] at hhcode
        exact Option.some_injective _ hhcode
      have hmemmap : codeStr ∈ db.hospitals.map HospitalRow.code :=
        List.mem_map.mpr ⟨h, hmem, hsome⟩
      have hpos : 0 < (db.hospitals.map HospitalRow.code).count codeStr :=
        List.count_pos_iff.mpr hmemmap
      have hle : (db.hospitals.map HospitalRow.code).count codeStr ≤ 1 :=
        List.nodup_iff_count_le_one.mp hnodup codeStr
      have heq : (db.hospitals.map HospitalRow.code).count codeStr =
          db.hospitals.countP (fun x => x.code == codeStr) := by
        simp [List.count, List.countP_map]
        rfl
      have hlen : db.hospitals.countP (fun x => x.code == codeStr) =
          (db.hospitals.filter (fun x => x.code == codeStr)).length :=
        List.countP_eq_length_filter _ _
      omega
    have hcode' : optTruthy (some codeStr) = true := hcodeEq ▸ hcode
    simp [handleCreateHospital, hname, haddr, hcode', hcodeEq, hcount]
  · intro hfresh
    have hcount : (db.hospitals.filter (fun x => x.code == codeStr)).length ≠ 1 := by
      have hempty : db.hospitals.filter (fun x => x.code == codeStr) = [] := by
        refine List.filter_eq_nil_iff.mpr ?_
        intro h hmem
        have := hfresh h hmem
        rw [hcodeEq] at this
        simp only [ne_eq, Option.some.injEq] at this
        simp [this]
      simp [hempty]
    have hcode' : optTruthy (some codeStr) = true := hcodeEq ▸ hcode
    simp [handleCreateHospital, hname, haddr, hcode', hcodeEq, hcount]

/-- Witness for C9: with one stored hospital of code `HSP-1`, posting the same
code is answered with the conflict error and no insert, while posting a fresh
code `HSP-2` creates and returns the hospital. -/
theorem create_hospital_conflict_or_created_witness :
    ((handleCreateHospital ⟨[⟨"h1", "General", "Kigali", "HSP-1"⟩], [], []⟩
        ⟨some "New", some "Addr", some "HSP-1"⟩ "h2").1.error =
        some "Hospital code already exists" ∧
     (handleCreateHospital ⟨[⟨"h1", "General", "Kigali", "HSP-1"⟩], [], []⟩
        ⟨some "New", some "Addr", some "HSP-1"⟩ "h2").2 =
        ⟨[⟨"h1", "General", "Kigali", "HSP-1"⟩], [], []⟩) ∧
    ((handleCreateHospital ⟨[⟨"h1", "General", "Kigali", "HSP-1"⟩], [], []⟩
        ⟨some "New", some "Addr", some "HSP-2"⟩ "h2").1.success = true ∧
     (handleCreateHospital ⟨[⟨"h1", "General", "Kigali", "HSP-1"⟩], [], []⟩
        ⟨some "New", some "Addr", some "HSP-2"⟩ "h2").1.hospital =
        some ⟨"h2", "New", "Addr", "HSP-2"⟩) := by
  have hconf := (create_hospital_conflict_or_created
    ⟨[⟨"h1", "General", "Kigali", "HSP-1"⟩], [], []⟩
    ⟨some "New", some "Addr", some "HSP-1"⟩ "h2" (by decide) rfl rfl rfl).1
    ⟨⟨"h1", "General", "Kigali", "HSP-1"⟩, by decide, rfl⟩
  have hok := (create_hospital_conflict_or_created
    ⟨[⟨"h1", "General", "Kigali", "HSP-1"⟩], [], []⟩
    ⟨some "New", some "Addr", some "HSP-2"⟩ "h2" (by decide) rfl rfl rfl).2
    (by decide)
  exact ⟨⟨hconf.2.1, hconf.2.2⟩, hok.1, hok.2.1⟩

/-! ## Admin route authorization

Two layers are embedded.  `middleware` is from `src/middleware.ts`: it guards
page routes, redirecting unauthenticated requests to `/login`, authenticated
requests on auth routes to `/admin`, and authenticated non-admins on `/admin`
pages to the unauthorized page.  `adminUsersIdHandler` is from the
`/api/admin/users/:id` route handler (`src/unnamed/part_004`): it runs for any
authenticated user; the source fetches the requester's `is_admin` flag
("Check if the user is an admin") but never inspects the result, which the
embedding keeps as an unused binding. -/

/-- `data?.is_admin` after `from("users").select("is_admin").eq("id", uid).single()`
— falsy when the row is absent. -/
def lookupIsAdmin (users : List UserRow) (uid : String) : Bool :=
  match users.find? (fun u => u.id == uid) with
  | some u => u.is_admin
  | none => false

/-- The four ways the middleware can answer. -/
inductive MiddlewareOutcome
  | redirectToLogin
  | redirectToAdmin
  | redirectToUnauthorized
  | pass
  deriving DecidableEq, Repr

/-- JS `String.prototype.startsWith`, computed over the character lists so
that it evaluates by `decide`. -/
def strStartsWith (s pre : String) : Bool :=
  pre.data.isPrefixOf s.data

/-- From `src/middleware.ts` (lines 15–18): the auth-route predicate. -/
def isAuthRoute (p : String) : Bool :=
  strStartsWith p "/login" || strStartsWith p "/signup" ||
    strStartsWith p "/reset-password"

/-- From `src/middleware.ts` (line 21): `pathname.startsWith("/admin")` — note
that `/api/admin/...` paths do not satisfy this predicate. -/
def isAdminPageRoute (p : String) : Bool :=
  strStartsWith p "/admin"

/-- From `src/middleware.ts` (lines 5–47): the request middleware
(`redirectToUnauthorized` models the redirect to the `/unathorized` page,
spelled as in the source). -/
def middleware (users : List UserRow) (hasSession : Bool)
    (sessionUserId pathname : String) : MiddlewareOutcome :=
  if !hasSession && !isAuthRoute pathname && !(pathname == "/") then
    .redirectToLogin
  else if hasSession && isAuthRoute pathname then
    .redirectToAdmin
  else if isAdminPageRoute pathname && hasSession then
    if !(lookupIsAdmin users sessionUserId) then .redirectToUnauthorized else .pass
  else
    .pass

/-- The JSON response of the admin users/:id handlers. -/
structure UsersApiResponse where
  status : Nat
  error : Option String
  success : Bool
  deriving DecidableEq, Repr

/-- The tables touched by the admin users/:id handlers. -/
structure UsersIdState where
  users : List UserRow
  diagnoses : List Diagnosis
  deriving DecidableEq, Repr

/-- The `operation` field of a PATCH body (`disable`/`enable`/`resetPassword`,
or a regular partial field update — of the modelled fields, `isAdmin`). -/
inductive UserUpdateOperation
  | disable
  | enable
  | resetPassword
  | fieldUpdate (isAdmin : Option Bool)
  deriving DecidableEq, Repr

/-- From `src/unnamed/part_004` (lines 71–174), `handleUpdateUser`: 404 when
the target row is absent, otherwise apply the requested operation. -/
def handleUpdateUser (st : UsersIdState) (userId : String)
    (op : UserUpdateOperation) : UsersApiResponse × UsersIdState :=
  match st.users.find? (fun u => u.id == userId) with
  | none => (⟨404, some "User not found", false⟩, st)
  | some _ =>
    match op with
    | .disable =>
      (⟨200, none, true⟩, { st with users := setUserDisabled st.users userId true })
    | .enable =>
      (⟨200, none, true⟩, { st with users := setUserDisabled st.users userId false })
    | .resetPassword =>
      (⟨200, none, true⟩, st)
    | .fieldUpdate isAdmin =>
      (⟨200, none, true⟩,
       { st with users := st.users.map (fun u =>
          if u.id == userId then
            { u with is_admin := isAdmin.getD u.is_admin }
          else u) })

/-- From `src/unnamed/part_004` (lines 176–214), `handleDeleteUser`: blocked
with 400 while the user has diagnoses, otherwise the row is deleted. -/
def handleDeleteUser (st : UsersIdState) (userId : String) :
    UsersApiResponse × UsersIdState :=
  if 0 < (st.diagnoses.filter (fun d => d.userId == userId)).length then
    (⟨400, some "Cannot delete user with associated diagnoses. Please reassign or delete the diagnoses first.",
      false⟩, st)
  else
    (⟨200, none, true⟩,
     { st with users := st.users.filter (fun u => !(u.id == userId)) })

/-- From `src/unnamed/part_004` (lines 7–34), the `/api/admin/users/:id`
handler: it queries the requester's `is_admin` flag and then dispatches on the
HTTP method without ever checking that flag. -/
def adminUsersIdHandler (st : UsersIdState) (requesterId : String)
    (method : String) (userId : Option String) (op : UserUpdateOperation) :
    UsersApiResponse × UsersIdState :=
  let _adminFlag := lookupIsAdmin st.users requesterId
  match userId with
  | none => (⟨400, some "User ID is required", false⟩, st)
  | some uid =>
    if method == "GET" then
      match st.users.find? (fun u => u.id == uid) with
      | none => (⟨404, some "not found", false⟩, st)
      | some _ => (⟨200, none, true⟩, st)
    else if method == "PATCH" then
      handleUpdateUser st uid op
    else if method == "DELETE" then
      handleDeleteUser st uid
    else
      (⟨405, some "Method not allowed", false⟩, st)

/-- C6: the middleware does redirect an authenticated non-admin away from
`/admin` pages, but the `/api/admin/users/:id` handler performs admin
operations for an authenticated non-admin: with requester `doc1`
(`is_admin = false`), a PATCH disable request against user `admin1` returns
success 200 and disables the target row — no 403 and no redirect, because the
handler fetches the requester's `is_admin` flag and never checks it, and the
middleware's admin predicate (`startsWith "/admin"`) does not cover
`/api/admin/...` paths. -/
theorem admin_api_performs_operation_for_non_admin :
    middleware [⟨"admin1", "h1", true, false⟩, ⟨"doc1", "h1", false, false⟩]
      true "doc1" "/admin/billing" = .redirectToUnauthorized ∧
    lookupIsAdmin [⟨"admin1", "h1", true, false⟩, ⟨"doc1", "h1", false, false⟩]
      "doc1" = false ∧
    isAdminPageRoute "/api/admin/users/admin1" = false ∧
    (adminUsersIdHandler
      ⟨[⟨"admin1", "h1", true, false⟩, ⟨"doc1", "h1", false, false⟩], []⟩
      "doc1" "PATCH" (some "admin1") .disable).1 = ⟨200, none, true⟩ ∧
    (adminUsersIdHandler
      ⟨[⟨"admin1", "h1", true, false⟩, ⟨"doc1", "h1", false, false⟩], []⟩
      "doc1" "PATCH" (some "admin1") .disable).2.users =
      [⟨"admin1", "h1", true, true⟩, ⟨"doc1", "h1", false, false⟩] := by
  refine ⟨?_, ?_, ?_, ?_, ?_⟩ <;> decide

/-! ## Support tickets (`addSupportTicketResponse`, `src/unnamed/part_011`)

The function first fetches the ticket with `.select("responses")` — a
projection that carries only the `responses` column — and later reads
`ticket.status` off that projected record.  In JS that read yields
`undefined`, so the embedded projection exposes the absent column as `none`. -/

/-- One entry of a ticket's `responses` array. -/
structure TicketResponse where
  id : String
  content : String
  is_admin_response : Bool
  created_at : String
  deriving DecidableEq, Repr

/-- A row of the `support_tickets` table (the fields the embedding needs). -/
structure SupportTicketRow where
  id : String
  status : String
  responses : List TicketResponse
  deriving DecidableEq, Repr

/-- The record produced by `.select("responses")`: only the `responses`
column. -/
structure FetchedTicketResponses where
  responses : List TicketResponse
  deriving DecidableEq, Repr

/-- Reading `ticket.status` from the `.select("responses")` projection: the
key is absent, so the read yields `undefined` (`none`). -/
def fetchedStatus (_t : FetchedTicketResponses) : Option String :=
  none

/-- From `src/unnamed/part_011` (lines 246–293), `addSupportTicketResponse`:
fetch the `responses` column, append the new entry
(`{ id: crypto.randomUUID(), content, is_admin_response, created_at }`, with
the random id and timestamp passed in as `newId`/`now`), and update the row;
the status spread
`...(isAdminResponse && ticket.status === "open" ? { status: "in-progress" } : {})`
compares the projected record's (absent) status against `"open"`. -/
def addSupportTicketResponse (t : SupportTicketRow) (newId : String)
    (response : String) (isAdminResponse : Bool) (now : String) :
    SupportTicketRow :=
  let fetched : FetchedTicketResponses := ⟨t.responses⟩
  let newResponse : TicketResponse :=
    { id := newId, content := response, is_admin_response := isAdminResponse,
      created_at := now }
  let responses := fetched.responses ++ [newResponse]
  { t with
    responses := responses
    status :=
      if isAdminResponse && (fetchedStatus fetched == some "open") then
        "in-progress"
      else t.status }

/-- C7: adding a response always appends exactly one entry and never edits or
removes existing ones, and a non-admin response never changes the status —
but the advertised open → in-progress transition on an admin response never
happens: on a concrete open ticket an admin response leaves the status
`"open"`, because the update reads `ticket.status` from a record fetched with
`.select("responses")`, where the column is absent. -/
theorem add_response_appends_but_never_transitions :
    (∀ (t : SupportTicketRow) (newId response : String) (isAdmin : Bool)
        (now : String),
      (addSupportTicketResponse t newId response isAdmin now).responses =
        t.responses ++ [⟨newId, response, isAdmin, now⟩]) ∧
    (∀ (t : SupportTicketRow) (newId response now : String),
      (addSupportTicketResponse t newId response false now).status = t.status) ∧
    (addSupportTicketResponse ⟨"t1", "open", []⟩ "r1" "hello" true
        "2024-01-01T00:00:00Z").status = "open" ∧
    (addSupportTicketResponse ⟨"t1", "open", []⟩ "r1" "hello" true
        "2024-01-01T00:00:00Z").responses =
      [⟨"r1", "hello", true, "2024-01-01T00:00:00Z"⟩] := by
  refine ⟨fun t newId response isAdmin now => ?_, fun t newId response now => ?_,
    ?_, ?_⟩
  · simp [addSupportTicketResponse]
  · simp [addSupportTicketResponse, fetchedStatus]
  · decide
  · decide

/-! ## Invoice PDF rendering (`generateInvoicePDF`/`generateInvoiceHTML`,
in the `pdf-utils` part of `src/middleware.ts`, lines 61–259)

`generateInvoicePDF` builds an HTML layout with `generateInvoiceHTML` and
hands it to the external rasterizer (html2canvas + jsPDF); the document
content is therefore decided by `generateInvoiceHTML`, which is embedded
below.  The HTML is assembled as the ordered concatenation of the template's
static chunks and dynamic insertions (static markup is reproduced with
insignificant indentation/newlines inside the template literal normalized to
single spaces).  The external date-fns `format` call and the repo's
`formatCurrency` (from `lib/utils/billing-utils`, absent from src/) are
modelled as fixed deterministic functions of their inputs. -/

/-- Right-nested concatenation of string chunks (linear-time to evaluate). -/
def catStrings (l : List String) : String :=
  l.foldr (fun a b => a ++ b) ""

/-- JS `a || b` for a possibly-absent string (`undefined`, `null`, `""` fall
through to the default). -/
def jsOr (s : Option String) (dflt : String) : String :=
  match s with
  | some v => if v == "" then dflt else v
  | none => dflt

/-- JS `String.prototype.toUpperCase`, over the character list. -/
def strToUpper (s : String) : String :=
  String.mk (s.data.map Char.toUpper)

/-- Model of the external date-fns call `format(new Date(d), fmt)`: an
abstract deterministic rendering of the date string under the format. -/
def dateFormat (fmt d : String) : String :=
  fmt ++ ";" ++ d

/-- Modelled from the spec: `formatCurrency` lives in
`lib/utils/billing-utils`, which is not under src/; the spec's dashboards
render RWF currency amounts, so it is modelled as a fixed deterministic
rendering of the amount. -/
def formatCurrency (amount : ℚ) : String :=
  "RWF " ++ toString amount

/-- One entry of the snapshotted `details.diagnoses` array (the two fields
the renderer reads: `diagnosisType` and `cost`, both possibly absent). -/
structure DetailsDiagnosis where
  diagnosisType : Option String
  cost : Option ℚ
  deriving DecidableEq, Repr

/-- The stored `details` snapshot payload of an invoice. -/
structure InvoiceDetails where
  hospitalName : Option String
  hospitalAddress : Option String
  diagnoses : List DetailsDiagnosis
  deriving DecidableEq, Repr

/-- The hospital row joined onto a fetched invoice (`invoice.hospitals`) —
live hospital data, not part of the stored snapshot. -/
structure HospitalJoin where
  name : String
  address : String
  deriving DecidableEq, Repr

/-- An invoice record as the renderer receives it: the stored row (id,
hospital reference, number, dates, amount, status, `details` snapshot) plus
the live-joined hospital. -/
structure InvoiceRecord where
  id : String
  hospital_id : String
  invoice_number : String
  date_generated : String
  start_date : String
  end_date : String
  total_amount : ℚ
  status : String
  details : Option InvoiceDetails
  hospitals : Option HospitalJoin
  deriving DecidableEq, Repr

/-- One accumulated per-type group of the renderer's
`diagnosisByType: Record<string, { count, cost }>`. -/
structure TypeGroup where
  count : Nat
  cost : ℚ
  deriving DecidableEq, Repr

/-- The `forEach` body of the renderer's grouping: bump the group of key `k`
(`count += 1`, `cost += c`), creating it on first sight. -/
def bumpTypeGroup (m : List (String × TypeGroup)) (k : String) (c : ℚ) :
    List (String × TypeGroup) :=
  match m with
  | [] => [(k, ⟨1, c⟩)]
  | (k', g) :: rest =>
    if k' = k then (k', ⟨g.count + 1, g.cost + c⟩) :: rest
    else (k', g) :: bumpTypeGroup rest k c

/-- From `generateInvoiceHTML` (lines 139–148): group the snapshotted
diagnoses by `diagnosisType || "Other"`, accumulating count and
`cost || 0`. -/
def diagnosisByType (l : List DetailsDiagnosis) : List (String × TypeGroup) :=
  l.foldl (fun m d => bumpTypeGroup m (jsOr d.diagnosisType "Other") (d.cost.getD 0)) []

/-- From `generateInvoiceHTML` (lines 150–161): one `<tr>` of the line-item
table — type, count, unit price `cost / count`, and amount. -/
def diagnosisRow (ty : String) (g : TypeGroup) : String :=
  catStrings
    ["<tr>",
     "<td style=\"padding: 10px; border: 1px solid #ddd;\">", ty, "</td>",
     "<td style=\"padding: 10px; border: 1px solid #ddd; text-align: center;\">",
     toString g.count, "</td>",
     "<td style=\"padding: 10px; border: 1px solid #ddd; text-align: center;\">",
     formatCurrency (g.cost / (g.count : ℚ)), "</td>",
     "<td style=\"padding: 10px; border: 1px solid #ddd; text-align: right;\">",
     formatCurrency g.cost, "</td>",
     "</tr>"]

/-- From `generateInvoiceHTML` (lines 150–161): the concatenation of the
line-item rows, in accumulation order (`diagnosisRows += ...`). -/
def diagnosisRows (m : List (String × TypeGroup)) : String :=
  m.foldl (fun acc e => acc ++ diagnosisRow e.1 e.2) ""

/-- From the `pdf-utils` part of `src/middleware.ts` (lines 133–259),
`generateInvoiceHTML`: the invoice document layout.  It reads the stored
`details` snapshot (`invoice.details || {}`), with the bill-to block falling
back to the live-joined hospital
(`details.hospitalName || invoice.hospitals?.name || "Unknown Hospital"`,
`details.hospitalAddress || invoice.hospitals?.address || ""`), and never
consults the diagnoses table: the line items come from `details.diagnoses`
alone.  The template is given as its ordered list of chunks
(`invoiceHtmlPieces`); the rendered document is their concatenation. -/
def invoiceHtmlPieces (invoice : InvoiceRecord) : List String :=
  let details := invoice.details.getD ⟨none, none, []⟩
  let hospitalName :=
    jsOr details.hospitalName (jsOr (invoice.hospitals.map HospitalJoin.name) "Unknown Hospital")
  let hospitalAddress :=
    jsOr details.hospitalAddress (jsOr (invoice.hospitals.map HospitalJoin.address) "")
  let rows := diagnosisRows (diagnosisByType details.diagnoses)
  ["<div style=\"font-family: Arial, sans-serif; max-width: 800px; margin: 0 auto; padding: 20px;\">",
     "<div style=\"display: flex; justify-content: space-between; align-items: center; margin-bottom: 20px;\">",
     "<div style=\"display: flex; align-items: center;\">",
     "<div style=\"background-color: #2563eb; color: white; padding: 12px; border-radius: 8px; margin-right: 12px;\">",
     "<svg xmlns=\"http://www.w3.org/2000/svg\" width=\"24\" height=\"24\" viewBox=\"0 0 24 24\" fill=\"none\" stroke=\"currentColor\" stroke-width=\"2\" stroke-linecap=\"round\" stroke-linejoin=\"round\">",
     "<path d=\"M19 3H5c-1.1 0-2 .9-2 2v14c0 1.1.9 2 2 2h14c1.1 0 2-.9 2-2V5c0-1.1-.9-2-2-2z\"></path>",
     "<line x1=\"12\" y1=\"8\" x2=\"12\" y2=\"16\"></line>",
     "<line x1=\"8\" y1=\"12\" x2=\"16\" y2=\"12\"></line>",
     "</svg></div><div>",
     "<h2 style=\"font-size: 24px; font-weight: bold; margin: 0;\">INVOICE</h2>",
     "<p style=\"color: #6b7280; margin: 0;\">", invoice.invoice_number, "</p>",
     "</div></div><div style=\"text-align: right;\">",
     "<p style=\"font-weight: bold; margin: 0;\">Healthlink Rwanda HDMS</p>",
     "<p style=\"color: #6b7280; margin: 0; font-size: 14px;\">KN 5 Rd, Kigali</p>",
     "<p style=\"color: #6b7280; margin: 0; font-size: 14px;\">Rwanda</p>",
     "<p style=\"color: #6b7280; margin: 0; font-size: 14px;\">info@healthlinkrwanda.org</p>",
     "</div></div>",
     "<hr style=\"border: 0; border-top: 1px solid #e5e7eb; margin: 20px 0;\" />",
     "<div style=\"display: flex; justify-content: space-between; margin-bottom: 20px;\"><div>",
     "<p style=\"color: #6b7280; font-size: 14px; margin-bottom: 5px;\">Bill To:</p>",
     "<p style=\"font-weight: bold; margin: 0;\">", hospitalName, "</p>",
     "<p style=\"color: #6b7280; font-size: 14px; margin: 0;\">", hospitalAddress, "</p>",
     "</div><div style=\"text-align: right;\"><div style=\"margin-bottom: 5px;\">",
     "<span style=\"color: #6b7280; font-size: 14px;\">Invoice Date:</span>",
     "<span style=\"font-size: 14px; margin-left: 10px;\">",
     dateFormat "MMMM d, yyyy" invoice.date_generated, "</span>",
     "</div><div style=\"margin-bottom: 5px;\">",
     "<span style=\"color: #6b7280; font-size: 14px;\">Billing Period:</span>",
     "<span style=\"font-size: 14px; margin-left: 10px;\">",
     dateFormat "MMMM d" invoice.start_date, " - ",
     dateFormat "MMMM d, yyyy" invoice.end_date, "</span>",
     "</div><div>",
     "<span style=\"color: #6b7280; font-size: 14px;\">Status:</span>",
     "<span style=\"font-size: 14px; font-weight: bold; color: #2563eb; margin-left: 10px;\">",
     strToUpper invoice.status, "</span>",
     "</div></div></div>",
     "<table style=\"width: 100%; border-collapse: collapse; margin-bottom: 20px;\">",
     "<thead><tr style=\"background-color: #f9fafb;\">",
     "<th style=\"padding: 10px; border: 1px solid #ddd; text-align: left;\">Diagnosis Type</th>",
     "<th style=\"padding: 10px; border: 1px solid #ddd; text-align: center;\">Quantity</th>",
     "<th style=\"padding: 10px; border: 1px solid #ddd; text-align: center;\">Unit Price</th>",
     "<th style=\"padding: 10px; border: 1px solid #ddd; text-align: right;\">Amount</th>",
     "</tr></thead><tbody>", rows, "</tbody></table>",
     "<div style=\"display: flex; justify-content: flex-end; margin-bottom: 20px;\"><div style=\"width: 300px;\">",
     "<div style=\"display: flex; justify-content: space-between; margin-bottom: 5px;\">",
     "<p style=\"font-weight: 500; margin: 0;\">Subtotal:</p>",
     "<p style=\"margin: 0;\">", formatCurrency invoice.total_amount, "</p></div>",
     "<div style=\"display: flex; justify-content: space-between; margin-bottom: 5px;\">",
     "<p style=\"font-weight: 500; margin: 0;\">Tax (0%):</p>",
     "<p style=\"margin: 0;\">", formatCurrency 0, "</p></div>",
     "<hr style=\"border: 0; border-top: 1px solid #e5e7eb; margin: 10px 0;\" />",
     "<div style=\"display: flex; justify-content: space-between; font-size: 18px;\">",
     "<p style=\"font-weight: bold; margin: 0;\">Total:</p>",
     "<p style=\"font-weight: bold; margin: 0;\">", formatCurrency invoice.total_amount, "</p>",
     "</div></div></div>",
     "<div style=\"background-color: #f9fafb; padding: 15px; border-radius: 8px;\">",
     "<p style=\"font-weight: 500; margin: 0 0 5px 0;\">Notes:</p>",
     "<p style=\"color: #6b7280; font-size: 14px; margin: 0;\">",
     "Payment is due within 30 days of invoice date. Please make payment to Healthlink Rwanda HDMS. Thank you for your business.",
     "</p></div></div>"]

/-- From the `pdf-utils` part of `src/middleware.ts` (lines 133–259),
`generateInvoiceHTML`: the rendered invoice document, the concatenation of
the template chunks. -/
def generateInvoiceHTML (invoice : InvoiceRecord) : String :=
  catStrings (invoiceHtmlPieces invoice)

theorem length_catStrings (l : List String) :
    (catStrings l).length = (l.map String.length).sum := by
  induction l with
  | nil => rfl
  | cons hd tl ih => simp [catStrings, String.length_append] at ih ⊢; omega

/-- A stored invoice whose `details` snapshot carries no hospital name or
address, joined against hospital "Hospital A". -/
def invoiceJoinedA : InvoiceRecord :=
  { id := "i1", hospital_id := "h1", invoice_number := "INV-001",
    date_generated := "2024-02-01", start_date := "2024-01-01",
    end_date := "2024-01-31", total_amount := 0, status := "pending",
    details := some ⟨none, none, []⟩, hospitals := some ⟨"Hospital A", "KN 1"⟩ }

/-- The same stored invoice fields, joined against hospital "Hospital Bee"
(hospital renamed after the invoice was generated). -/
def invoiceJoinedB : InvoiceRecord :=
  { invoiceJoinedA with hospitals := some ⟨"Hospital Bee", "KN 1"⟩ }

set_option maxRecDepth 100000 in
/-- Counterexample to C4: two invoice records agreeing on the stored snapshot
fields the claim enumerates (`details`, `invoice_number`, the three dates,
`total_amount`, `status`) but fetched with different joined hospital rows
produce different documents — the renderer reads the live-joined
`invoice.hospitals?.name` as a fallback, so it is not a function of the
stored snapshot alone. -/
theorem generate_invoice_html_reads_live_hospital_join :
    invoiceJoinedA.details = invoiceJoinedB.details ∧
    invoiceJoinedA.invoice_number = invoiceJoinedB.invoice_number ∧
    invoiceJoinedA.date_generated = invoiceJoinedB.date_generated ∧
    invoiceJoinedA.start_date = invoiceJoinedB.start_date ∧
    invoiceJoinedA.end_date = invoiceJoinedB.end_date ∧
    invoiceJoinedA.total_amount = invoiceJoinedB.total_amount ∧
    invoiceJoinedA.status = invoiceJoinedB.status ∧
    generateInvoiceHTML invoiceJoinedA ≠ generateInvoiceHTML invoiceJoinedB := by
  refine ⟨rfl, rfl, rfl, rfl, rfl, rfl, rfl, ?_⟩
  intro h
  have hlen := congrArg String.length h
  simp only [generateInvoiceHTML, length_catStrings] at hlen
  revert hlen
  decide

/-- C4 (amended): the renderer is a pure function of the invoice record as
fetched — the stored fields (`details` snapshot, `invoice_number`, the three
dates, `total_amount`, `status`) together with the live-joined hospital
name/address used as the bill-to fallback; it reads nothing else (in
particular neither `id` nor `hospital_id`, and it never re-queries live
diagnoses: the line items come from `details.diagnoses` alone). -/
theorem generate_invoice_html_determined_by_fetched_row
    (i1 i2 : InvoiceRecord)
    (hdetails : i1.details = i2.details)
    (hnum : i1.invoice_number = i2.invoice_number)
    (hgen : i1.date_generated = i2.date_generated)
    (hstart : i1.start_date = i2.start_date)
    (hend : i1.end_date = i2.end_date)
    (hamount : i1.total_amount = i2.total_amount)
    (hstatus : i1.status = i2.status)
    (hhosp : i1.hospitals = i2.hospitals) :
    generateInvoiceHTML i1 = generateInvoiceHTML i2 := by
  cases i1
  cases i2
  simp only at hdetails hnum hgen hstart hend hamount hstatus hhosp
  subst hdetails hnum hgen hstart hend hamount hstatus hhosp
  rfl

/-- Witness for the amended C4: two records differing only in `id` and
`hospital_id` render the same document. -/
theorem generate_invoice_html_determined_by_fetched_row_witness :
    generateInvoiceHTML invoiceJoinedA =
      generateInvoiceHTML { invoiceJoinedA with id := "i2", hospital_id := "h9" } :=
  generate_invoice_html_determined_by_fetched_row invoiceJoinedA
    { invoiceJoinedA with id := "i2", hospital_id := "h9" }
    rfl rfl rfl rfl rfl rfl rfl rfl

end HDMS
